import Mathlib

/-!
Shallow embedding of the client-side logic of src/app.py, a Streamlit
support-ticket frontend: the attachment filename resolver, the reply
normalizer, the ticket API client wrappers, the creation workflow and the
admin login gate.

Modelling conventions.  Python strings are Lean String; the Python str
operations used by the source (split, join, replace, lower, startswith,
substring membership) are re-implemented structurally on List Char so that
every definition is executable and every concrete evaluation goes through
the kernel.  Python dict field access reply.get(k) is an Option-valued
record field; Python truthiness of a string is nonemptiness and the code
distinguishes, faithfully to the source, between or-chaining (truthiness
of the value) and get-with-default (presence of the key).  Remote calls
are modelled by an HttpOutcome input holding either the response status
code with the decoded body, or the message of a raised transport
exception; UI display calls such as st.error are modelled as an emitted
list of messages returned next to the value.  Python sorted with a key is
a stable insertion sort over the code-point order on strings, which
agrees with the comparison Python performs on the all-string keys covered
by this model; non-string key values, which would make Python raise
inside sorted and take the bare-except fallback, are outside the model
and noted where relevant.
-/

namespace TicketApp

/-! ### Python string primitives -/

/-- Needle is an initial run of hay, on char lists. -/
def listStart : List Char → List Char → Bool
  | [], _ => true
  | _ :: _, [] => false
  | x :: xs, y :: ys => if x = y then listStart xs ys else false

/-- Substring membership, Python needle in hay. -/
def listHas (needle : List Char) : List Char → Bool
  | [] => needle.isEmpty
  | y :: ys => listStart needle (y :: ys) || listHas needle ys

/-- Python needle in hay for strings. -/
def strContains (hay needle : String) : Bool := listHas needle.data hay.data

/-- Python s.startswith(p). -/
def strStarts (s p : String) : Bool := listStart p.data s.data

/-- Characters of l strictly before the first occurrence of sep. -/
def takeUntilChar (sep : Char) : List Char → List Char
  | [] => []
  | x :: xs => if x = sep then [] else x :: takeUntilChar sep xs

/-- Python url.split(chr)[0] for chr the question mark: drop query parameters. -/
def pyCutQuery (s : String) : String := String.mk (takeUntilChar '?' s.data)

/-- Prepend a character to the first group of a split result. -/
def consHead (a : Char) : List (List Char) → List (List Char)
  | [] => [[a]]
  | g :: gs => (a :: g) :: gs

/-- Python s.split(sep) on char lists; the result is always nonempty. -/
def splitChar (sep : Char) : List Char → List (List Char)
  | [] => [[]]
  | x :: xs => if x = sep then [] :: splitChar sep xs else consHead x (splitChar sep xs)

/-- Python s.split(sep) for a one-character separator. -/
def pySplit (sep : Char) (s : String) : List String :=
  (splitChar sep s.data).map String.mk

/-- Python s.split(sep)[-1]. -/
def pyLastSeg (sep : Char) (s : String) : String := (pySplit sep s).getLastD ""

/-- Python s.replace(pat, rep) for a three-character pattern and a
one-character replacement, which is the only shape the source uses: every
occurrence, scanning left to right, continuing after each replaced segment. -/
def replace3 (p1 p2 p3 r : Char) : List Char → List Char
  | [] => []
  | [c] => [c]
  | [c1, c2] => [c1, c2]
  | c1 :: c2 :: c3 :: rest =>
    if c1 = p1 ∧ c2 = p2 ∧ c3 = p3 then r :: replace3 p1 p2 p3 r rest
    else c1 :: replace3 p1 p2 p3 r (c2 :: c3 :: rest)

/-- ASCII lowercase of one character, modelling Python str.lower on the ASCII
range that the source compares against. -/
def lowerChar (c : Char) : Char :=
  if 'A' ≤ c ∧ c ≤ 'Z' then Char.ofNat (c.toNat + 32) else c

/-- ASCII lowercase of a string. -/
def asciiLower (s : String) : String := String.mk (s.data.map lowerChar)

/-- Code-point comparison of characters, as Python compares characters. -/
def charLtB (a b : Char) : Bool := decide (a.toNat < b.toNat)

/-- Lexicographic code-point comparison of char lists, as Python compares
strings: a strict prefix is smaller, otherwise the first differing
character decides. -/
def listLtB : List Char → List Char → Bool
  | [], [] => false
  | [], _ :: _ => true
  | _ :: _, [] => false
  | x :: xs, y :: ys => cond (charLtB x y) true (cond (charLtB y x) false (listLtB xs ys))

/-- Python string comparison s < t. -/
def strLtB (s t : String) : Bool := listLtB s.data t.data

/-! ### Attachment name resolver, src/app.py lines 442-470 and 473 -/

/-- The extension list of line 456.  Note that docx and zip are NOT members,
unlike the list the spec gives. -/
def extsList : List String :=
  [".png", ".jpg", ".jpeg", ".gif", ".webp", ".bmp", ".svg", ".pdf", ".txt", ".doc", ".xlsx"]

/-- The image extension list of line 473. -/
def imageExts : List String := [".png", ".jpg", ".jpeg", ".gif", ".webp", ".bmp", ".svg"]

/-- Loop test of line 456: the part contains a dot, and its lowercase form
contains one of the listed dot-prefixed extensions as a substring. -/
def matchesExt (part : String) : Bool :=
  strContains part "." && extsList.any (fun e => strContains (asciiLower part) e)

/-- Python underscore join of a list of parts. -/
def joinU : List String → String
  | [] => ""
  | [p] => p
  | p :: q :: rest => p ++ "_" ++ joinU (q :: rest)

/-- The for/else loop of lines 455-461: join from the first matching part,
otherwise the last part, with the literal attachment for an empty list. -/
def scanParts (all : List String) : List String → String
  | [] => all.getLastD "attachment"
  | p :: rest => if matchesExt p = true then joinU (p :: rest) else scanParts all rest

/-- Minimal percent cleanup of line 466: replace %20 by a space, then %2B by
a plus sign. -/
def cleanupName (s : String) : String :=
  String.mk (replace3 '%' '2' 'B' '+' (replace3 '%' '2' '0' ' ' s.data))

/-- The underscore parts of the final path segment of a url, after dropping
query parameters: the list the loop of line 455 ranges over. -/
def partsOf (url : String) : List String := pySplit '_' (pyLastSeg '/' (pyCutQuery url))

/-- Filename extraction of lines 442-470.  For a string input none of the str
operations in the try block can raise, so the except branch of line 469 is
reachable only through the startswith guard failing, which the code expresses
directly on line 468; both give the literal attachment. -/
def extractFileName (url : String) : String :=
  if strStarts url "http" = true then
    cleanupName
      (if strContains (pyLastSeg '/' (pyCutQuery url)) "_" = true ∧ 3 ≤ (partsOf url).length then
        scanParts (partsOf url) (partsOf url)
      else pyLastSeg '/' (pyCutQuery url))
  else "attachment"

/-- Media kind of the displayed attachment. -/
inductive FileKind where
  | image
  | document
  deriving DecidableEq

/-- Classification of line 473: image iff the lowercased FULL url contains one
of the image extensions, otherwise document. -/
def classifyKind (url : String) : FileKind :=
  if imageExts.any (fun e => strContains (asciiLower url) e) = true then FileKind.image
  else FileKind.document

/-- A Python value reaching the resolver: a string, or any non-string value
(whose attribute accesses raise). -/
inductive AttachVal where
  | str (s : String)
  | nonStr
  deriving DecidableEq

/-- Filename with the except fallback of lines 469-470: on a non-string value
the attribute error raised inside the try block is absorbed and the literal
attachment is assigned. -/
def attachFileName : AttachVal → String
  | AttachVal.str s => extractFileName s
  | AttachVal.nonStr => "attachment"

/-- The displayed pair of filename and kind.  The classification on line 473
sits OUTSIDE the try block, so on a non-string value it raises an uncaught
attribute error before anything is displayed; that crash is modelled as none. -/
def resolveAttachment : AttachVal → Option (String × FileKind)
  | AttachVal.str s => some (extractFileName s, classifyKind s)
  | AttachVal.nonStr => none

/-- Modelled from the words of claim C3 only, for comparison against the code:
the extension list the claim gives, which includes docx and zip. -/
def claimedExts : List String :=
  ["png", "jpg", "jpeg", "gif", "webp", "bmp", "svg", "pdf", "txt", "doc", "xlsx", "docx", "zip"]

/-- Modelled from the words of claim C3 only: a part matches when its
lowercase form contains one of the claimed extensions. -/
def claimedMatch (part : String) : Bool :=
  claimedExts.any (fun e => strContains (asciiLower part) e)

/-- Modelled from the words of claim C3 only: scan left to right, join from
the first matching part, fall back to the last part. -/
def claimedScan (all : List String) : List String → String
  | [] => all.getLastD "attachment"
  | p :: rest => if claimedMatch p = true then joinU (p :: rest) else claimedScan all rest

/-- Modelled from the words of claim C3 only: the filename the claim
prescribes for a url whose final path segment has at least three parts. -/
def claimedResolveName (url : String) : String :=
  claimedScan (pySplit '_' (pyLastSeg '/' (pyCutQuery url)))
    (pySplit '_' (pyLastSeg '/' (pyCutQuery url)))

/-! ### Reply normalizer, src/app.py lines 504-514 -/

/-- A raw reply record as fetched from the backend: each field either absent
or a string value. -/
structure RawReply where
  role : Option String
  reply_type : Option String
  text : Option String
  content : Option String
  created_at : Option String
  timestamp : Option String
  deriving DecidableEq

/-- Python a or b where a is an optional string and b a string: the value of a
when a is present and truthy (nonempty), otherwise b. -/
def pyOrStr (a : Option String) (b : String) : String :=
  match a with
  | some s => if s = "" then b else s
  | none => b

/-- Line 512: reply.get(role) or reply.get(reply underscore type, user).
The first source wins by TRUTHINESS, the second by presence. -/
def resolveRole (r : RawReply) : String := pyOrStr r.role (r.reply_type.getD "user")

/-- Line 513: text or content, defaulting to the empty string. -/
def resolveText (r : RawReply) : String := pyOrStr r.text (r.content.getD "")

/-- Line 514: created underscore at or timestamp, defaulting to empty. -/
def resolveTimestamp (r : RawReply) : String := pyOrStr r.created_at (r.timestamp.getD "")

/-- Modelled from the words of claim C5 only: resolution where PRESENCE of the
first field, not truthiness of its value, decides. -/
def claimResolveRole (r : RawReply) : String := r.role.getD (r.reply_type.getD "user")

/-- The sort key of line 506: x.get(created underscore at, x.get(timestamp,
empty)).  This is get-with-default, so it is PRESENCE based: an absent
timestamp contributes the empty string as key and still takes part in the
sort. -/
def sortKey (r : RawReply) : String := r.created_at.getD (r.timestamp.getD "")

/-- Stable insertion into an already sorted list: the new element passes over
strictly smaller keys and lands before the first key that is not strictly
smaller, which keeps input order among equal keys as Python sorted does. -/
def insertByKey (x : RawReply) : List RawReply → List RawReply
  | [] => [x]
  | y :: ys =>
    if strLtB (sortKey y) (sortKey x) = true then y :: insertByKey x ys
    else x :: y :: ys

/-- Line 506: sorted(replies, key) as a stable ascending sort on the resolved
string keys.  The bare except of line 507 can only fire when sorted raises,
i.e. on mutually incomparable non-string key values, which the all-string
record model excludes; for string-valued fields the sort always runs. -/
def sorted_replies : List RawReply → List RawReply
  | [] => []
  | x :: xs => insertByKey x (sorted_replies xs)

/-- Ascending-key relation between two records: the key of the second is not
strictly below the key of the first. -/
def keyRel (a b : RawReply) : Prop := strLtB (sortKey b) (sortKey a) = false

/-! ### Conversation rendering, src/app.py lines 517-529 and 703-708 -/

/-- Lines 518-522: the displayed time suffix. -/
def formatTimeStr (timestamp : String) : String :=
  if timestamp = "" then "" else " • " ++ String.mk (timestamp.data.take 16)

/-- Lines 524-529: the if/elif chain over the resolved role, with no else
branch, so a reply with any other role produces no message. -/
def renderRoleMessage (role text timeStr : String) : Option String :=
  if role = "user" then
    some ("<div class=\"chat-message user-message\">👤 <strong>User" ++ timeStr
      ++ ":</strong><br>" ++ text ++ "</div>")
  else if role = "ai" then
    some ("<div class=\"chat-message assistant-message\">🤖 <strong>AI Assistant" ++ timeStr
      ++ ":</strong><br>" ++ text ++ "</div>")
  else if role = "admin" then
    some ("<div class=\"chat-message admin-message\">👨‍💼 <strong>Admin" ++ timeStr
      ++ ":</strong><br>" ++ text ++ "</div>")
  else none

/-- Lines 703-708: the same if/elif chain in the admin panel, without the time
suffix. -/
def renderAdminPanelMessage (role text : String) : Option String :=
  if role = "user" then
    some ("<div class=\"chat-message user-message\">👤 <strong>User:</strong> " ++ text ++ "</div>")
  else if role = "ai" then
    some ("<div class=\"chat-message assistant-message\">🤖 <strong>AI:</strong> " ++ text ++ "</div>")
  else if role = "admin" then
    some ("<div class=\"chat-message admin-message\">👨‍💼 <strong>Admin:</strong> " ++ text ++ "</div>")
  else none

/-- Whole conversation rendering of lines 504-529: order the records, resolve
the fields, keep the messages the role chain produces. -/
def renderConversation (replies : List RawReply) : List String :=
  (sorted_replies replies).filterMap fun r =>
    renderRoleMessage (resolveRole r) (resolveText r) (formatTimeStr (resolveTimestamp r))

/-! ### Ticket API client, src/app.py lines 28-138 -/

/-- Outcome of one HTTP request: a response with its status code and decoded
body, or a raised transport exception with its message. -/
inductive HttpOutcome (α : Type) where
  | resp (code : Nat) (body : α)
  | exc (msg : String)

/-- Lines 28-38: on 200 the decoded list, otherwise an empty list plus a
displayed error; on exception an empty list plus a displayed error. -/
def get_all_tickets {α : Type} (r : HttpOutcome (List α)) : List α × List String :=
  match r with
  | HttpOutcome.resp code body =>
    if code = 200 then (body, [])
    else ([], ["Failed to fetch tickets: " ++ toString code])
  | HttpOutcome.exc e => ([], ["Error connecting to API: " ++ e])

/-- Lines 40-50: success on 200 or 201, otherwise None plus a displayed
error. -/
def create_ticket {α : Type} (r : HttpOutcome α) : Option α × List String :=
  match r with
  | HttpOutcome.resp code body =>
    if code = 200 ∨ code = 201 then (some body, [])
    else (none, ["Failed to create ticket: " ++ toString code])
  | HttpOutcome.exc e => (none, ["Error creating ticket: " ++ e])

/-- Lines 52-62. -/
def get_ticket_by_id {α : Type} (r : HttpOutcome α) : Option α × List String :=
  match r with
  | HttpOutcome.resp code body =>
    if code = 200 then (some body, [])
    else (none, ["Failed to fetch ticket: " ++ toString code])
  | HttpOutcome.exc e => (none, ["Error fetching ticket: " ++ e])

/-- The decoded body of a successful upload response: both url fields
optional, as returned by response underscore data.get. -/
structure UploadBody where
  signed_url : Option String
  attachment_url : Option String

/-- Python a or b on two optional strings: the first when present and truthy,
otherwise the second whatever it is. -/
def pyOrOpt (a b : Option String) : Option String :=
  match a with
  | some s => if s = "" then b else some s
  | none => b

/-- Lines 64-77: on 200, signed url or-chained with attachment url; otherwise
None plus a displayed error. -/
def upload_file_via_api (r : HttpOutcome UploadBody) : Option String × List String :=
  match r with
  | HttpOutcome.resp code body =>
    if code = 200 then (pyOrOpt body.signed_url body.attachment_url, [])
    else (none, ["Failed to upload file: " ++ toString code])
  | HttpOutcome.exc e => (none, ["Error uploading file: " ++ e])

/-- Lines 79-97. -/
def generate_ai_reply {α : Type} (r : HttpOutcome α) : Option α × List String :=
  match r with
  | HttpOutcome.resp code body =>
    if code = 200 then (some body, [])
    else (none, ["Failed to generate AI reply: " ++ toString code])
  | HttpOutcome.exc e => (none, ["Error generating AI reply: " ++ e])

/-- Lines 99-105: the bare boolean status test; a non-200 code yields False
with NO displayed message at all. -/
def send_email_via_api (r : HttpOutcome Unit) : Bool × List String :=
  match r with
  | HttpOutcome.resp code _ => (if code = 200 then true else false, [])
  | HttpOutcome.exc e => (false, ["Error sending email: " ++ e])

/-- Lines 107-117. -/
def add_reply_via_api {α : Type} (r : HttpOutcome α) : Option α × List String :=
  match r with
  | HttpOutcome.resp code body =>
    if code = 200 then (some body, [])
    else (none, ["Failed to add reply: " ++ toString code])
  | HttpOutcome.exc e => (none, ["Error adding reply: " ++ e])

/-- The decoded ticket body as used by the replies fetch: the replies field of
the ticket object, possibly absent. -/
structure TicketBody (α : Type) where
  replies : Option (List α)

/-- Lines 119-130: on 200 the replies field with empty default; a non-200
code yields an empty list with NO displayed message; an exception yields an
empty list plus a displayed error. -/
def get_ticket_replies {α : Type} (r : HttpOutcome (TicketBody α)) : List α × List String :=
  match r with
  | HttpOutcome.resp code body =>
    if code = 200 then (body.replies.getD [], []) else ([], [])
  | HttpOutcome.exc e => ([], ["Error fetching replies: " ++ e])

/-- Lines 132-138: the bare boolean status test, like the email sender. -/
def update_ticket_status (r : HttpOutcome Unit) : Bool × List String :=
  match r with
  | HttpOutcome.resp code _ => (if code = 200 then true else false, [])
  | HttpOutcome.exc e => (false, ["Error updating ticket status: " ++ e])

/-! ### Creation workflow, src/app.py lines 309-349 -/

/-- One observable step of the creation workflow: each remote call attempted,
and each user-facing report. -/
inductive WStep where
  | createAttempt
  | reportCreated (id : String)
  | uploadAttempt (name : String)
  | uploadReport (name : String)
  | aiAttempt
  | aiReport
  | emailAttempt
  | emailReport
  deriving DecidableEq

/-- The remote world the workflow runs against: the create result (the new
ticket id when creation succeeds), the per-file upload result, and the
success of the AI and email calls. -/
structure WEnv where
  createRes : Option String
  uploadRes : String → Option String
  aiRes : Bool
  emailRes : Bool

/-- Truthiness of an optional string result. -/
def truthyOpt : Option String → Bool
  | some s => decide (s ≠ "")
  | none => false

/-- Lines 328-332: the upload loop, one attempt per file in order, with a
success report when the returned url is truthy; a failed upload neither stops
the loop nor is reported here (its error is shown inside the client call). -/
def eventsForFiles (env : WEnv) : List String → List WStep
  | [] => []
  | f :: fs =>
    WStep.uploadAttempt f ::
      ((if truthyOpt (env.uploadRes f) = true then [WStep.uploadReport f] else [])
        ++ eventsForFiles env fs)

/-- Lines 321-349: create, then only under a truthy create result the success
report, the upload loop, the unconditional AI attempt, and the email attempt
guarded by a nonempty contact address. -/
def runCreationWorkflow (files : List String) (email : String) (env : WEnv) : List WStep :=
  WStep.createAttempt ::
    (match env.createRes with
     | none => []
     | some tid =>
       WStep.reportCreated tid ::
         (eventsForFiles env files
           ++ (WStep.aiAttempt ::
             ((if env.aiRes = true then [WStep.aiReport] else [])
               ++ (if email ≠ "" then
                     WStep.emailAttempt ::
                       (if env.emailRes = true then [WStep.emailReport] else [])
                   else [])))))

/-- Lines 309-312 then the workflow: the required-field validation returns
early with no remote call at all when a required field is empty. -/
def createTicketPageSubmit (title category description createdBy email : String)
    (files : List String) (env : WEnv) : List WStep :=
  if title = "" ∨ category = "" ∨ description = "" ∨ createdBy = "" then []
  else runCreationWorkflow files email env

/-- An attempt event, as opposed to a report event. -/
def isAttempt : WStep → Bool
  | WStep.createAttempt => true
  | WStep.uploadAttempt _ => true
  | WStep.aiAttempt => true
  | WStep.emailAttempt => true
  | _ => false

/-! ### Admin gate, src/app.py lines 647-660 -/

/-- Lines 653-659: the session flag after one submission of the login form,
starting from the unauthenticated state in which the form is shown. -/
def adminAuthAfterLogin (username password : String) : Bool :=
  if username = "admin" ∧ password = "admin" then true else false

/-! ### Concrete inputs used by witnesses and counterexamples -/

/-- A record carrying only a created timestamp. -/
def rA : RawReply := ⟨none, none, none, none, some "b", none⟩

/-- A record with no timestamp at all. -/
def rB : RawReply := ⟨none, none, none, none, none, none⟩

/-- A record whose role field is present but empty while reply type names
admin. -/
def rc5 : RawReply := ⟨some "", some "admin", none, none, none, none⟩

/-- A record exercising both fallback sources. -/
def rW : RawReply := ⟨some "", some "admin", none, some "hi", none, none⟩

/-- A workflow world where creation succeeds and every upload fails. -/
def envW : WEnv := ⟨some "T1", fun _ => none, false, false⟩

/-- A workflow world where creation itself fails. -/
def envFail : WEnv := ⟨none, fun _ => none, false, false⟩

/-- The storage url example the spec gives for the resolver. -/
def urlEx : String := "https://x/y/api_2025-09-04T14:30:50.602985+00:00_test.txt?sig=abc"

/-- The url exhibiting the zip divergence of claim C3. -/
def urlZip : String := "https://x/a_b.zip_c"

/-! ### Order facts for the string comparison the sort uses -/

theorem charLtB_lt {a b : Char} : charLtB a b = true ↔ a.toNat < b.toNat := by
  simp [charLtB]

theorem charLtB_ge {a b : Char} : charLtB a b = false ↔ b.toNat ≤ a.toNat := by
  simp [charLtB]

theorem listLtB_asymm : ∀ (x y : List Char), listLtB x y = true → listLtB y x = false
  | [], [], h => by simp [listLtB] at h
  | [], _ :: _, _ => rfl
  | _ :: _, [], h => by simp [listLtB] at h
  | x :: xs, y :: ys, h => by
    simp only [listLtB] at h ⊢
    cases hxy : charLtB x y with
    | true =>
      have hyx : charLtB y x = false := charLtB_ge.mpr (Nat.le_of_lt (charLtB_lt.mp hxy))
      simp [hxy, hyx]
    | false =>
      rw [hxy] at h
      simp only [cond_false] at h
      cases hyx : charLtB y x with
      | true => rw [hyx] at h; simp at h
      | false =>
        rw [hyx] at h
        simp only [cond_false] at h
        simp only [cond_false]
        exact listLtB_asymm xs ys h

theorem listLtB_neg_trans : ∀ (x y z : List Char),
    listLtB x y = false → listLtB y z = false → listLtB x z = false
  | [], y, z, h1, h2 => by
    cases y with
    | nil => exact h2
    | cons b bs => simp [listLtB] at h1
  | _ :: _, [], z, _, h2 => by
    cases z with
    | nil => rfl
    | cons c cs => simp [listLtB] at h2
  | _ :: _, _ :: _, [], _, _ => rfl
  | x :: xs, y :: ys, z :: zs, h1, h2 => by
    simp only [listLtB] at h1 h2 ⊢
    cases hxy : charLtB x y with
    | true => rw [hxy] at h1; simp at h1
    | false =>
      rw [hxy] at h1
      simp only [cond_false] at h1
      cases hyz : charLtB y z with
      | true => rw [hyz] at h2; simp at h2
      | false =>
        rw [hyz] at h2
        simp only [cond_false] at h2
        have nxy := charLtB_ge.mp hxy
        have nyz := charLtB_ge.mp hyz
        have hxz : charLtB x z = false := charLtB_ge.mpr (Nat.le_trans nyz nxy)
        rw [hxz]
        simp only [cond_false]
        cases hzx : charLtB z x with
        | true => rfl
        | false =>
          simp only [cond_false]
          have nzx : x.toNat ≤ z.toNat := charLtB_ge.mp hzx
          have hyx : charLtB y x = false := charLtB_ge.mpr (by omega)
          have hzy : charLtB z y = false := charLtB_ge.mpr (by omega)
          rw [hyx] at h1
          simp only [cond_false] at h1
          rw [hzy] at h2
          simp only [cond_false] at h2
          exact listLtB_neg_trans xs ys zs h1 h2

theorem strLtB_asymm {s t : String} (h : strLtB s t = true) : strLtB t s = false :=
  listLtB_asymm s.data t.data h

theorem strLtB_neg_trans {s t u : String} (h1 : strLtB s t = false)
    (h2 : strLtB t u = false) : strLtB s u = false :=
  listLtB_neg_trans s.data t.data u.data h1 h2

/-! ### Structure of the stable insertion sort -/

theorem mem_insertByKey (z x : RawReply) (l : List RawReply) :
    z ∈ insertByKey x l ↔ z = x ∨ z ∈ l := by
  induction l with
  | nil => simp [insertByKey]
  | cons y ys ih =>
    simp only [insertByKey]
    by_cases hc : strLtB (sortKey y) (sortKey x) = true
    · rw [if_pos hc]
      simp only [List.mem_cons, ih]
      tauto
    · rw [if_neg hc]
      simp only [List.mem_cons]

theorem perm_insertByKey (x : RawReply) : ∀ (l : List RawReply),
    (insertByKey x l).Perm (x :: l)
  | [] => List.Perm.refl _
  | y :: ys => by
    simp only [insertByKey]
    by_cases hc : strLtB (sortKey y) (sortKey x) = true
    · rw [if_pos hc]
      exact ((perm_insertByKey x ys).cons y).trans (List.Perm.swap x y ys)
    · rw [if_neg hc]

theorem pairwise_insertByKey (x : RawReply) : ∀ (l : List RawReply),
    l.Pairwise keyRel → (insertByKey x l).Pairwise keyRel
  | [], _ => by simp [insertByKey]
  | y :: ys, h => by
    rcases List.pairwise_cons.mp h with ⟨hy, hys⟩
    simp only [insertByKey]
    by_cases hc : strLtB (sortKey y) (sortKey x) = true
    · rw [if_pos hc]
      refine List.pairwise_cons.mpr ⟨?_, pairwise_insertByKey x ys hys⟩
      intro z hz
      rcases (mem_insertByKey z x ys).mp hz with rfl | hzys
      · exact strLtB_asymm hc
      · exact hy z hzys
    · rw [if_neg hc]
      have hc' : strLtB (sortKey y) (sortKey x) = false := by
        cases hcc : strLtB (sortKey y) (sortKey x) with
        | true => exact absurd hcc hc
        | false => rfl
      refine List.pairwise_cons.mpr ⟨?_, h⟩
      intro z hz
      rcases List.mem_cons.mp hz with rfl | hzys
      · exact hc'
      · exact strLtB_neg_trans (hy z hzys) hc'

theorem sorted_replies_perm (l : List RawReply) : (sorted_replies l).Perm l := by
  induction l with
  | nil => exact List.Perm.refl _
  | cons x xs ih =>
    exact (perm_insertByKey x (sorted_replies xs)).trans (ih.cons x)

theorem sorted_replies_pairwise (l : List RawReply) : (sorted_replies l).Pairwise keyRel := by
  induction l with
  | nil => simp [sorted_replies]
  | cons x xs ih => exact pairwise_insertByKey x (sorted_replies xs) ih

/-! ### Structure of the filename scan and split -/

theorem scanParts_eq (all : List String) : ∀ (parts : List String),
    scanParts all parts =
      if parts.any matchesExt = true then joinU (parts.dropWhile (fun p => ! matchesExt p))
      else all.getLastD "attachment"
  | [] => by simp [scanParts]
  | p :: rest => by
    by_cases hm : matchesExt p = true
    · simp [scanParts, hm, List.dropWhile_cons]
    · have hm' : matchesExt p = false := by
        cases hmm : matchesExt p with
        | true => exact absurd hmm hm
        | false => rfl
      simp [scanParts, hm', List.dropWhile_cons, scanParts_eq all rest]

theorem splitChar_ne_nil (sep : Char) : ∀ (l : List Char), splitChar sep l ≠ []
  | [] => by simp [splitChar]
  | x :: xs => by
    simp only [splitChar]
    by_cases hc : x = sep
    · rw [if_pos hc]
      simp
    · rw [if_neg hc]
      cases h : splitChar sep xs with
      | nil => simp [consHead]
      | cons g gs => simp [consHead]

theorem consHead_length (a : Char) (r : List (List Char)) (h : r ≠ []) :
    (consHead a r).length = r.length := by
  cases r with
  | nil => exact absurd rfl h
  | cons g gs => simp [consHead]

theorem splitChar_many (sep : Char) : ∀ (l : List Char),
    2 ≤ (splitChar sep l).length → listHas [sep] l = true
  | [] => by
    intro h
    simp [splitChar] at h
  | x :: xs => by
    intro h
    by_cases hc : x = sep
    · subst hc
      simp [listHas, listStart]
    · simp only [splitChar, if_neg hc,
        consHead_length x _ (splitChar_ne_nil sep xs)] at h
      have hrec := splitChar_many sep xs h
      simp [listHas, hrec]

theorem parts_ge3_has_underscore (url : String) (hp : 3 ≤ (partsOf url).length) :
    strContains (pyLastSeg '/' (pyCutQuery url)) "_" = true := by
  have h2 : 2 ≤ (splitChar '_' (pyLastSeg '/' (pyCutQuery url)).data).length := by
    have h3 := hp
    simp only [partsOf, pySplit, List.length_map] at h3
    omega
  exact splitChar_many '_' _ h2

/-! ### Truthiness against presence in field resolution -/

theorem pyOrStr_truthy {o : Option String} {b s : String} (h : o = some s) (hne : s ≠ "") :
    pyOrStr o b = s := by
  subst h
  simp [pyOrStr, hne]

theorem pyOrStr_falsy {o : Option String} {b : String} (h : o = none ∨ o = some "") :
    pyOrStr o b = b := by
  rcases h with h | h <;> subst h <;> simp [pyOrStr]

/-! ### Upload loop membership -/

theorem mem_eventsForFiles (env : WEnv) (f : String) :
    ∀ (files : List String), f ∈ files → WStep.uploadAttempt f ∈ eventsForFiles env files
  | [], h => absurd h (List.not_mem_nil f)
  | g :: fs, h => by
    simp only [eventsForFiles]
    rcases List.mem_cons.mp h with rfl | h2
    · exact List.mem_cons_self _ _
    · simp only [List.mem_cons, List.mem_append]
      right; right
      exact mem_eventsForFiles env f fs h2

/-! ### Claims -/

/-- C1, counterexample: a record whose timestamp fields are both absent does
NOT force the whole sequence back to arrival order; it is given the empty
string as sort key and is sorted to the front, so the output of the sort
differs from the input order. -/
theorem reply_ordering_counterexample :
    rB.created_at = none ∧ rB.timestamp = none ∧
    sorted_replies [rA, rB] = [rB, rA] ∧ sorted_replies [rA, rB] ≠ [rA, rB] := by decide

/-- C1, amended: the normalizer always sorts, stably and ascending, by the raw
resolved key string (created underscore at if the key is present, else
timestamp, else the empty string); the output is a permutation of the input
that is pairwise ascending on keys, and a record with both timestamp fields
absent participates with the empty key instead of forcing arrival order. -/
theorem reply_ordering_amended (l : List RawReply) :
    (sorted_replies l).Perm l ∧
    (sorted_replies l).Pairwise keyRel ∧
    (∀ r : RawReply, r.created_at = none → r.timestamp = none → sortKey r = "") := by
  refine ⟨sorted_replies_perm l, sorted_replies_pairwise l, ?_⟩
  intro r h1 h2
  simp [sortKey, h1, h2]

/-- Witness for the amended C1 theorem at a concrete conversation. -/
theorem reply_ordering_amended_witness :
    (sorted_replies [rA, rB]).Perm [rA, rB] ∧ sortKey rB = "" := by
  have h := reply_ordering_amended [rA, rB]
  exact ⟨h.1, h.2.2 rB rfl rfl⟩

/-- C2: when the create call yields no ticket, the workflow stops after the
create attempt, with no upload, AI or email attempt; when it yields a ticket,
every file is attempted regardless of individual upload outcomes, the AI call
is attempted, the email call is attempted whenever a contact address was
given, and the ticket is reported created. -/
theorem creation_workflow_policy (files : List String) (email : String) (env : WEnv) :
    (env.createRes = none → runCreationWorkflow files email env = [WStep.createAttempt]) ∧
    (∀ tid, env.createRes = some tid →
      WStep.reportCreated tid ∈ runCreationWorkflow files email env ∧
      (∀ f ∈ files, WStep.uploadAttempt f ∈ runCreationWorkflow files email env) ∧
      WStep.aiAttempt ∈ runCreationWorkflow files email env ∧
      (email ≠ "" → WStep.emailAttempt ∈ runCreationWorkflow files email env)) := by
  constructor
  · intro h
    simp [runCreationWorkflow, h]
  · intro tid h
    refine ⟨?_, ?_, ?_, ?_⟩
    · simp [runCreationWorkflow, h]
    · intro f hf
      have hm := mem_eventsForFiles env f files hf
      simp [runCreationWorkflow, h, List.mem_append, hm]
    · simp [runCreationWorkflow, h]
    · intro he
      simp [runCreationWorkflow, h, he]

/-- Witness for C2 at a concrete world where creation fails, and at one where
creation succeeds while every upload fails. -/
theorem creation_workflow_policy_witness :
    runCreationWorkflow ["a.txt"] "u@x" envFail = [WStep.createAttempt] ∧
    WStep.reportCreated "T1" ∈ runCreationWorkflow ["a.txt"] "u@x" envW ∧
    WStep.uploadAttempt "a.txt" ∈ runCreationWorkflow ["a.txt"] "u@x" envW ∧
    WStep.aiAttempt ∈ runCreationWorkflow ["a.txt"] "u@x" envW ∧
    WStep.emailAttempt ∈ runCreationWorkflow ["a.txt"] "u@x" envW := by
  have h0 := (creation_workflow_policy ["a.txt"] "u@x" envFail).1 rfl
  have h := (creation_workflow_policy ["a.txt"] "u@x" envW).2 "T1" rfl
  exact ⟨h0, h.1, h.2.1 "a.txt" (by simp), h.2.2.1, h.2.2.2 (by decide)⟩

/-- C3, counterexample: the claimed extension list includes zip, but the list
on line 456 of the source does not, so on a url whose matching part holds a
zip name the code falls back to the last part while the claim prescribes the
joined suffix. -/
theorem attachment_name_counterexample :
    extractFileName urlZip = "c" ∧
    claimedResolveName urlZip = "b.zip_c" ∧
    3 ≤ (partsOf urlZip).length ∧
    extractFileName urlZip ≠ claimedResolveName urlZip := by decide

/-- C3, amended: for a url starting with http whose final path segment splits
on underscores into at least three parts, the filename is the underscore join
from the first part that contains a dot and one of the dot-prefixed
extensions png, jpg, jpeg, gif, webp, bmp, svg, pdf, txt, doc, xlsx as a
substring of its lowercase form (docx names match through the doc substring;
zip is not recognized), with the last part as fallback, followed by the
percent cleanup. -/
theorem attachment_name_amended (url : String)
    (hh : strStarts url "http" = true)
    (hp : 3 ≤ (partsOf url).length) :
    extractFileName url =
      cleanupName
        (if (partsOf url).any matchesExt = true then
          joinU ((partsOf url).dropWhile (fun p => ! matchesExt p))
        else (partsOf url).getLastD "attachment") := by
  have hc := parts_ge3_has_underscore url hp
  unfold extractFileName
  rw [if_pos hh, if_pos ⟨hc, hp⟩, scanParts_eq]

/-- Witness for the amended C3 theorem at the storage url example of the
spec, whose result is the expected test.txt. -/
theorem attachment_name_amended_witness :
    strStarts urlEx "http" = true ∧
    3 ≤ (partsOf urlEx).length ∧
    extractFileName urlEx =
      cleanupName
        (if (partsOf urlEx).any matchesExt = true then
          joinU ((partsOf urlEx).dropWhile (fun p => ! matchesExt p))
        else (partsOf urlEx).getLastD "attachment") ∧
    extractFileName urlEx = "test.txt" :=
  ⟨by decide, by decide, attachment_name_amended urlEx (by decide) (by decide), by decide⟩

/-- C4, counterexample: the status update operation collapses every failing
response to the bare value false with no message at all, so two failures with
different response codes are indistinguishable and the result carries neither
a cause nor the code, against the claimed typed failure value. -/
theorem client_failure_counterexample :
    update_ticket_status (HttpOutcome.resp 500 ()) = update_ticket_status (HttpOutcome.resp 404 ()) ∧
    update_ticket_status (HttpOutcome.resp 500 ()) = (false, []) := by decide

/-- C4, amended: every operation returns the decoded payload on its recognized
success codes; on any other code or transport failure it returns a fixed
sentinel (None, an empty list, or false) while the human-readable cause, with
the code where available, goes to the displayed message list instead of the
returned value; the status update and email operations return bare false for
a non-success code with no message at all. -/
theorem client_failure_amended {α : Type} (code : Nat) (body : List α) (b : α)
    (ub : UploadBody) (tb : TicketBody α) (e : String) :
    (code ≠ 200 →
      get_all_tickets (HttpOutcome.resp code body)
          = ([], ["Failed to fetch tickets: " ++ toString code]) ∧
      get_ticket_by_id (HttpOutcome.resp code b)
          = (none, ["Failed to fetch ticket: " ++ toString code]) ∧
      upload_file_via_api (HttpOutcome.resp code ub)
          = (none, ["Failed to upload file: " ++ toString code]) ∧
      generate_ai_reply (HttpOutcome.resp code b)
          = (none, ["Failed to generate AI reply: " ++ toString code]) ∧
      add_reply_via_api (HttpOutcome.resp code b)
          = (none, ["Failed to add reply: " ++ toString code]) ∧
      update_ticket_status (HttpOutcome.resp code ()) = (false, []) ∧
      send_email_via_api (HttpOutcome.resp code ()) = (false, []) ∧
      get_ticket_replies (HttpOutcome.resp code tb) = ([], [])) ∧
    (¬(code = 200 ∨ code = 201) →
      create_ticket (HttpOutcome.resp code b)
          = (none, ["Failed to create ticket: " ++ toString code])) ∧
    (get_all_tickets (α := α) (HttpOutcome.exc e) = ([], ["Error connecting to API: " ++ e]) ∧
      get_ticket_by_id (α := α) (HttpOutcome.exc e) = (none, ["Error fetching ticket: " ++ e]) ∧
      create_ticket (α := α) (HttpOutcome.exc e) = (none, ["Error creating ticket: " ++ e]) ∧
      upload_file_via_api (HttpOutcome.exc e) = (none, ["Error uploading file: " ++ e]) ∧
      generate_ai_reply (α := α) (HttpOutcome.exc e)
          = (none, ["Error generating AI reply: " ++ e]) ∧
      add_reply_via_api (α := α) (HttpOutcome.exc e) = (none, ["Error adding reply: " ++ e]) ∧
      update_ticket_status (HttpOutcome.exc e)
          = (false, ["Error updating ticket status: " ++ e]) ∧
      send_email_via_api (HttpOutcome.exc e) = (false, ["Error sending email: " ++ e]) ∧
      get_ticket_replies (α := α) (HttpOutcome.exc e)
          = ([], ["Error fetching replies: " ++ e])) ∧
    (get_all_tickets (HttpOutcome.resp 200 body) = (body, []) ∧
      get_ticket_by_id (HttpOutcome.resp 200 b) = (some b, []) ∧
      create_ticket (HttpOutcome.resp 201 b) = (some b, []) ∧
      update_ticket_status (HttpOutcome.resp 200 ()) = (true, []) ∧
      send_email_via_api (HttpOutcome.resp 200 ()) = (true, []) ∧
      create_ticket (HttpOutcome.resp 200 b) = (some b, []) ∧
      upload_file_via_api (HttpOutcome.resp 200 ub)
          = (pyOrOpt ub.signed_url ub.attachment_url, []) ∧
      generate_ai_reply (HttpOutcome.resp 200 b) = (some b, []) ∧
      add_reply_via_api (HttpOutcome.resp 200 b) = (some b, []) ∧
      get_ticket_replies (HttpOutcome.resp 200 tb) = (tb.replies.getD [], [])) := by
  refine ⟨fun h => ?_, fun h => ?_, ?_, ?_⟩
  · refine ⟨?_, ?_, ?_, ?_, ?_, ?_, ?_, ?_⟩ <;>
      simp [get_all_tickets, get_ticket_by_id, upload_file_via_api, generate_ai_reply,
        add_reply_via_api, update_ticket_status, send_email_via_api, get_ticket_replies, h]
  · simp [create_ticket, h]
  · refine ⟨?_, ?_, ?_, ?_, ?_, ?_, ?_, ?_, ?_⟩ <;>
      simp [get_all_tickets, get_ticket_by_id, create_ticket, upload_file_via_api,
        generate_ai_reply, add_reply_via_api, update_ticket_status, send_email_via_api,
        get_ticket_replies]
  · refine ⟨?_, ?_, ?_, ?_, ?_, ?_, ?_, ?_, ?_, ?_⟩ <;>
      simp [get_all_tickets, get_ticket_by_id, create_ticket, update_ticket_status,
        send_email_via_api, upload_file_via_api, generate_ai_reply, add_reply_via_api,
        get_ticket_replies]

/-- Witness for the amended C4 theorem at concrete failing and succeeding
responses. -/
theorem client_failure_amended_witness :
    get_all_tickets (HttpOutcome.resp 500 ([] : List Nat))
        = ([], ["Failed to fetch tickets: " ++ toString 500]) ∧
    create_ticket (HttpOutcome.resp 500 (0 : Nat))
        = (none, ["Failed to create ticket: " ++ toString 500]) ∧
    get_all_tickets (HttpOutcome.resp 200 ([7] : List Nat)) = ([7], []) ∧
    upload_file_via_api (HttpOutcome.resp 200 ⟨some "S", none⟩) = (some "S", []) ∧
    generate_ai_reply (HttpOutcome.resp 200 (0 : Nat)) = (some 0, []) ∧
    add_reply_via_api (HttpOutcome.resp 200 (0 : Nat)) = (some 0, []) := by
  have h := client_failure_amended 500 ([] : List Nat) (0 : Nat) ⟨none, none⟩
    (TicketBody.mk none) "x"
  have h2 := client_failure_amended 200 ([7] : List Nat) (0 : Nat) ⟨some "S", none⟩
    (TicketBody.mk none) "x"
  have g := h2.2.2.2
  exact ⟨(h.1 (by decide)).1, h.2.1 (by decide), g.1, g.2.2.2.2.2.2.1,
    g.2.2.2.2.2.2.2.1, g.2.2.2.2.2.2.2.2.1⟩

/-- C5, counterexample: a record whose role field is present but empty
resolves to the reply type value, because line 512 chains the sources with
Python or, deciding by truthiness; the claimed presence-based resolution
would keep the empty role. -/
theorem field_resolution_counterexample :
    rc5.role = some "" ∧ rc5.reply_type = some "admin" ∧
    resolveRole rc5 = "admin" ∧ claimResolveRole rc5 = "" ∧
    resolveRole rc5 ≠ claimResolveRole rc5 := by decide

/-- C5, amended: the first source wins by TRUTHINESS (present and nonempty),
the second by presence whatever its value, and the documented default applies
only when the first is falsy and the second absent; likewise for text and
timestamp. -/
theorem field_resolution_amended (r : RawReply) :
    (∀ s, r.role = some s → s ≠ "" → resolveRole r = s) ∧
    ((r.role = none ∨ r.role = some "") → ∀ t, r.reply_type = some t → resolveRole r = t) ∧
    ((r.role = none ∨ r.role = some "") → r.reply_type = none → resolveRole r = "user") ∧
    (∀ s, r.text = some s → s ≠ "" → resolveText r = s) ∧
    ((r.text = none ∨ r.text = some "") → ∀ t, r.content = some t → resolveText r = t) ∧
    ((r.text = none ∨ r.text = some "") → r.content = none → resolveText r = "") ∧
    (∀ s, r.created_at = some s → s ≠ "" → resolveTimestamp r = s) ∧
    ((r.created_at = none ∨ r.created_at = some "") →
      ∀ t, r.timestamp = some t → resolveTimestamp r = t) ∧
    ((r.created_at = none ∨ r.created_at = some "") →
      r.timestamp = none → resolveTimestamp r = "") := by
  refine ⟨?_, ?_, ?_, ?_, ?_, ?_, ?_, ?_, ?_⟩
  · intro s hs hne
    exact pyOrStr_truthy hs hne
  · intro h t ht
    show pyOrStr r.role (r.reply_type.getD "user") = t
    rw [pyOrStr_falsy h, ht]
    rfl
  · intro h ht
    show pyOrStr r.role (r.reply_type.getD "user") = "user"
    rw [pyOrStr_falsy h, ht]
    rfl
  · intro s hs hne
    exact pyOrStr_truthy hs hne
  · intro h t ht
    show pyOrStr r.text (r.content.getD "") = t
    rw [pyOrStr_falsy h, ht]
    rfl
  · intro h ht
    show pyOrStr r.text (r.content.getD "") = ""
    rw [pyOrStr_falsy h, ht]
    rfl
  · intro s hs hne
    exact pyOrStr_truthy hs hne
  · intro h t ht
    show pyOrStr r.created_at (r.timestamp.getD "") = t
    rw [pyOrStr_falsy h, ht]
    rfl
  · intro h ht
    show pyOrStr r.created_at (r.timestamp.getD "") = ""
    rw [pyOrStr_falsy h, ht]
    rfl

/-- Witness for the amended C5 theorem at a record exercising both fallback
sources. -/
theorem field_resolution_amended_witness :
    resolveRole rW = "admin" ∧ resolveText rW = "hi" := by
  have h := field_resolution_amended rW
  exact ⟨h.2.1 (Or.inr rfl) "admin" rfl, h.2.2.2.2.1 (Or.inl rfl) "hi" rfl⟩

/-- C6: a reply whose resolved role is none of user, ai, admin produces no
message in either role chain: rendering stays total and the reply is silently
dropped from the role-specific branches. -/
theorem unknown_role_dropped (role text timeStr : String)
    (h1 : role ≠ "user") (h2 : role ≠ "ai") (h3 : role ≠ "admin") :
    renderRoleMessage role text timeStr = none ∧ renderAdminPanelMessage role text = none := by
  constructor <;> simp [renderRoleMessage, renderAdminPanelMessage, h1, h2, h3]

/-- Witness for C6 at a concrete unknown role. -/
theorem unknown_role_dropped_witness :
    renderRoleMessage "bot" "x" "" = none ∧ renderAdminPanelMessage "bot" "x" = none :=
  unknown_role_dropped "bot" "x" "" (by decide) (by decide) (by decide)

/-- C7: when a successful upload response offers both urls, the signed one is
returned; when it offers exactly one, that one is returned. -/
theorem upload_prefers_signed (s a : String) (hs : s ≠ "") :
    upload_file_via_api (HttpOutcome.resp 200 ⟨some s, some a⟩) = (some s, []) ∧
    upload_file_via_api (HttpOutcome.resp 200 ⟨some s, none⟩) = (some s, []) ∧
    upload_file_via_api (HttpOutcome.resp 200 ⟨none, some a⟩) = (some a, []) := by
  refine ⟨?_, ?_, ?_⟩ <;> simp [upload_file_via_api, pyOrOpt, hs]

/-- Witness for C7 at concrete urls. -/
theorem upload_prefers_signed_witness :
    upload_file_via_api (HttpOutcome.resp 200 ⟨some "S", some "A"⟩) = (some "S", []) ∧
    upload_file_via_api (HttpOutcome.resp 200 ⟨none, some "A"⟩) = (some "A", []) := by
  have h := upload_prefers_signed "S" "A" (by decide)
  exact ⟨h.1, h.2.2⟩

/-- C8, counterexample: on a non-string value the filename fallback fires, but
the kind classification of line 473 sits outside the try block and raises an
uncaught attribute error, so the resolver does not return the claimed pair of
the literal attachment with kind document. -/
theorem nonstring_kind_counterexample :
    attachFileName AttachVal.nonStr = "attachment" ∧
    resolveAttachment AttachVal.nonStr = none ∧
    resolveAttachment AttachVal.nonStr ≠ some ("attachment", FileKind.document) := by decide

/-- C8, amended: for an empty url, and for any string not starting with http,
the resolver absorbs the failure and yields the literal attachment, with kind
document for the empty url; for a non-string input only the filename fallback
is absorbed, while the unguarded kind classification propagates the error. -/
theorem parse_failure_amended (s : String) (h : strStarts s "http" = false) :
    extractFileName s = "attachment" ∧
    resolveAttachment (AttachVal.str "") = some ("attachment", FileKind.document) ∧
    attachFileName AttachVal.nonStr = "attachment" ∧
    resolveAttachment AttachVal.nonStr = none := by
  refine ⟨?_, by decide, rfl, rfl⟩
  simp [extractFileName, h]

/-- Witness for the amended C8 theorem at a concrete non-http string. -/
theorem parse_failure_amended_witness :
    extractFileName "abc" = "attachment" ∧ resolveAttachment AttachVal.nonStr = none := by
  have h := parse_failure_amended "abc" (by decide)
  exact ⟨h.1, h.2.2.2⟩

/-- C9: every failing fetch of the ticket list or of the replies, whether a
non-success code or a transport error, returns an empty list, equal to the
result of a successful fetch of an empty backend, so the call site cannot
tell the two apart. -/
theorem fetch_failure_empty {α : Type} (code : Nat) (body : List α) (tb : TicketBody α)
    (e : String) (h : code ≠ 200) :
    (get_all_tickets (HttpOutcome.resp code body)).1 = [] ∧
    (get_all_tickets (α := α) (HttpOutcome.exc e)).1 = [] ∧
    (get_ticket_replies (HttpOutcome.resp code tb)).1 = [] ∧
    (get_ticket_replies (α := α) (HttpOutcome.exc e)).1 = [] ∧
    (get_all_tickets (HttpOutcome.resp code body)).1
      = (get_all_tickets (α := α) (HttpOutcome.resp 200 [])).1 ∧
    (get_ticket_replies (HttpOutcome.resp code tb)).1
      = (get_ticket_replies (HttpOutcome.resp 200 (TicketBody.mk (some ([] : List α))))).1 := by
  refine ⟨?_, ?_, ?_, ?_, ?_, ?_⟩ <;> simp [get_all_tickets, get_ticket_replies, h]

/-- Witness for C9 at a concrete failing code and a concrete transport
error. -/
theorem fetch_failure_empty_witness :
    (get_all_tickets (HttpOutcome.resp 500 ([3] : List Nat))).1 = [] ∧
    (get_ticket_replies (α := Nat) (HttpOutcome.exc "boom")).1 = [] := by
  have h := fetch_failure_empty 500 ([3] : List Nat) (TicketBody.mk none) "boom" (by decide)
  exact ⟨h.1, h.2.2.2.1⟩

/-- C10: one submission of the admin login form authenticates the session iff
the submitted username and password both equal the literal admin. -/
theorem admin_gate_iff (u p : String) :
    adminAuthAfterLogin u p = true ↔ (u = "admin" ∧ p = "admin") := by
  by_cases h : u = "admin" ∧ p = "admin" <;> simp [adminAuthAfterLogin, h]

end TicketApp
